import Mathlib

/-!
Shallow embedding of the growpanel-mcp-server repository (TypeScript):
  - src/utils/api.ts        (callApi)                      — upstream client
  - src/tools/getMRR.ts     (getMRRInput, getMRR.run)      — tool
  - src/tools/getLeads.ts   (getLeadsInput, getLeads.run)  — tool
  - src/tools/getCohorts.ts (getCohortsInput, getCohorts.run) — tool
  - src/server.ts           (wrapTool, the SDK ListTools/CallTool handlers,
                             and the hand-written POST /events JSON-RPC handler)

JavaScript runtime values are embedded as the inductive JSValue; machine
integers do not occur (all numbers in the claims are small status codes and
dates, embedded as Nat/Int).  Stateful code (the HTTP exchange, the upstream
fetch) is embedded by explicit passing: the upstream collaborator is a
function from endpoint and query to a response, and every embedded operation
returns the list of upstream requests it issued alongside its result, so that
"no upstream call is attempted" is the statement that this list is empty.
Calendar time is embedded as a civil date (year, month, day) passed
explicitly for "new Date()"; the timezone distinction between
Date.toISOString (UTC, used by getMRR) and date-fns format (local time, used
by getLeads/getCohorts) is abstracted away by using a single civil date for
"today".
-/

/-- Embedding of the JavaScript values that flow through the server:
primitives, arrays and plain objects (an object is its ordered field list,
as produced by JS object literals and JSON.parse). -/
inductive JSValue where
  | undef
  | null
  | boolean (b : Bool)
  | num (n : Int)
  | str (s : String)
  | arr (elems : List JSValue)
  | obj (fields : List (String × JSValue))
deriving Repr

/-- JavaScript truthiness, as used by `result && result.content` in wrapTool
and by `!apiKey` in callApi (NaN does not occur in the embedded fragment). -/
def truthy : JSValue → Bool
  | .undef => false
  | .null => false
  | .boolean b => b
  | .num n => n != 0
  | .str s => !s.isEmpty
  | .arr _ => true
  | .obj _ => true

/-- Property access `v[k]` on a JS value: the first field with that key, or
undefined.  (Access on the primitives that actually reach property reads in
the source yields undefined; the TypeError raised by access on null/undefined
is not exercised by any embedded code path.) -/
def getProp (v : JSValue) (k : String) : JSValue :=
  match v with
  | .obj fs =>
    match fs.lookup k with
    | some x => x
    | none => .undef
  | _ => .undef

mutual
/-- Embedding of JSON.stringify on a defined value.  String escaping and the
2-space pretty-printing indent of `JSON.stringify(x, null, 2)` are abstracted
to a compact rendering; no claim depends on the rendered bytes. -/
def stringifyCore : JSValue → String
  | .undef => "null"
  | .null => "null"
  | .boolean b => if b then "true" else "false"
  | .num n => toString n
  | .str s => "\"" ++ s ++ "\""
  | .arr es => "[" ++ stringifyElems es ++ "]"
  | .obj fs => "\x7b" ++ stringifyFields fs ++ "\x7d"

/-- Comma-joined serialization of array elements (helper of stringifyCore). -/
def stringifyElems : List JSValue → String
  | [] => ""
  | [e] => stringifyCore e
  | e :: es => stringifyCore e ++ "," ++ stringifyElems es

/-- Comma-joined serialization of object fields (helper of stringifyCore). -/
def stringifyFields : List (String × JSValue) → String
  | [] => ""
  | [(k, v)] => "\"" ++ k ++ "\":" ++ stringifyCore v
  | (k, v) :: fs => "\"" ++ k ++ "\":" ++ stringifyCore v ++ "," ++ stringifyFields fs
end

mutual
/-- Embedding of JavaScript String(v) coercion, used by URLSearchParams and
by the template literal in the "Unknown tool" message. -/
def jsToString : JSValue → String
  | .undef => "undefined"
  | .null => "null"
  | .boolean b => if b then "true" else "false"
  | .num n => toString n
  | .str s => s
  | .arr es => jsToStringElems es
  | .obj _ => "[object Object]"

/-- Array-to-string coercion: elements coerced and comma-joined. -/
def jsToStringElems : List JSValue → String
  | [] => ""
  | [e] => jsToString e
  | e :: es => jsToString e ++ "," ++ jsToStringElems es
end

/-- Embedding of `JSON.stringify(v, null, 2)` as a JS value: undefined for
undefined input (JSON.stringify returns undefined there), a string otherwise. -/
def jsonStringifyJS : JSValue → JSValue
  | .undef => .undef
  | v => .str (stringifyCore v)

/-- server.ts wrapTool: `typeof item === 'string' ? item : JSON.stringify(item, null, 2)`. -/
def jsTextOf : JSValue → JSValue
  | .str s => .str s
  | v => jsonStringifyJS v

/-- A single MCP text content block `{type: "text", text: v}` as built in
server.ts wrapTool and in the tool run functions. -/
def textBlock (v : JSValue) : JSValue :=
  .obj [("type", .str "text"), ("text", v)]

/-- The MCP content envelope `{content: [...]}`. -/
def mcpEnvelope (blocks : List JSValue) : JSValue :=
  .obj [("content", .arr blocks)]

/-- server.ts lines 18-51, wrapTool, applied to the (successfully) resolved
value of a tool run.  The try/catch around the awaited run rethrows errors
unchanged, so the error path is the identity and is handled by the callers in
the embedding; this definition is the wrapping of a resolved value:
pass through anything with a truthy `content` property, give arrays one text
block per element, and wrap everything else in a single text block. -/
def wrapToolValue (result : JSValue) : JSValue :=
  if truthy result && truthy (getProp result "content") then result
  else
    match result with
    | .arr items => mcpEnvelope (items.map fun item => textBlock (jsTextOf item))
    | other => mcpEnvelope [textBlock (jsTextOf other)]

/-! ## Calendar

Civil-date arithmetic backing the default date synthesis.  getLeads and
getCohorts compute `subDays(end, 365)` (date-fns); getMRR computes
`start.setDate(end.getDate() - 365)`, which by the JS Date day-roll
normalization is the same calendar date 365 days earlier.  Both are embedded
as 365 applications of the previous-day function. -/

/-- Gregorian leap year. -/
def isLeap (y : Nat) : Bool :=
  (y % 4 == 0 && y % 100 != 0) || y % 400 == 0

/-- Days in month m of year y (months numbered 1..12). -/
def daysInMonth (y m : Nat) : Nat :=
  if m = 2 then (if isLeap y then 29 else 28)
  else if m = 4 ∨ m = 6 ∨ m = 9 ∨ m = 11 then 30
  else 31

/-- A civil (local calendar) date. -/
structure CivilDate where
  year : Nat
  month : Nat
  day : Nat
deriving Repr, DecidableEq

/-- Validity of a civil date. -/
def CivilDate.valid (d : CivilDate) : Prop :=
  1 ≤ d.month ∧ d.month ≤ 12 ∧ 1 ≤ d.day ∧ d.day ≤ daysInMonth d.year d.month

instance (d : CivilDate) : Decidable d.valid := by
  unfold CivilDate.valid; infer_instance

/-- The previous calendar day. -/
def predDay (d : CivilDate) : CivilDate :=
  if 1 < d.day then ⟨d.year, d.month, d.day - 1⟩
  else if 1 < d.month then ⟨d.year, d.month - 1, daysInMonth d.year (d.month - 1)⟩
  else ⟨d.year - 1, 12, 31⟩

/-- The next calendar day. -/
def succDay (d : CivilDate) : CivilDate :=
  if d.day < daysInMonth d.year d.month then ⟨d.year, d.month, d.day + 1⟩
  else if d.month < 12 then ⟨d.year, d.month + 1, 1⟩
  else ⟨d.year + 1, 1, 1⟩

/-- n calendar days earlier. -/
def subDays : Nat → CivilDate → CivilDate
  | 0, d => d
  | n + 1, d => subDays n (predDay d)

/-- n calendar days later. -/
def addDays : Nat → CivilDate → CivilDate
  | 0, d => d
  | n + 1, d => succDay (addDays n d)

/-- The decimal digit character for n mod 10. -/
def digitChar (n : Nat) : Char := Char.ofNat (48 + n % 10)

/-- Zero-padded 4-digit decimal rendering (the year part of yyyyMMdd; both
Date.toISOString and date-fns "yyyy" render exactly 4 digits for years in
0..9999). -/
def pad4 (n : Nat) : String :=
  ⟨[digitChar (n / 1000), digitChar (n / 100), digitChar (n / 10), digitChar n]⟩

/-- Zero-padded 2-digit decimal rendering (month and day parts). -/
def pad2 (n : Nat) : String :=
  ⟨[digitChar (n / 10), digitChar n]⟩

/-- A civil date rendered as yyyyMMdd. -/
def fmt8 (d : CivilDate) : String :=
  pad4 d.year ++ pad2 d.month ++ pad2 d.day

/-- The default date filter synthesized by every tool run when `date` is
omitted: the last 365 days ending today, rendered yyyyMMdd-yyyyMMdd. -/
def defaultDateRange (today : CivilDate) : String :=
  fmt8 (subDays 365 today) ++ "-" ++ fmt8 today

/-- Embedding of the anchored zod regex /^\d{8}-\d{8}$/ used by every tool's
`date` field (\d is [0-9]). -/
def matchesDateRange (s : String) : Bool :=
  match s.data with
  | [a, b, c, d, e, f, g, h, hy, i, j, k, l, m, n, o, p] =>
      [a, b, c, d, e, f, g, h].all Char.isDigit && hy == '-'
        && [i, j, k, l, m, n, o, p].all Char.isDigit
  | _ => false

/-! ## Filter schema layer (the zod input schemas, as validators)

Embeddings of `getMRRInput.parse`, `getLeadsInput.parse` and
`getCohortsInput.parse`.  zod aggregates all issues of a failed parse into
one ZodError; the embedding stops at the first failing field and abbreviates
zod's generated messages where the source does not supply one explicitly —
no claim depends on the text or the aggregation of validation messages,
only on the parse failing.  Unknown keys are stripped (zod default). -/

/-- The enumeration of the zod `interval` field, in source order. -/
def intervalEnum : List String := ["day", "week", "month", "quarter", "year"]

/-- The enumeration of the zod `region` field, in source order. -/
def regionEnum : List String := ["europe", "asia", "north_america", "emea", "apac"]

/-- The enumeration of the zod `billing_freq` field, in source order
(month, quarter, year, week). -/
def billingFreqEnum : List String := ["month", "quarter", "year", "week"]

/-- z.string().optional(): absent stays absent, a string passes, anything
else (including null) is rejected. -/
def parseOptStr (v : JSValue) : Except String (Option String) :=
  match v with
  | .undef => .ok none
  | .str s => .ok (some s)
  | _ => .error "Expected string"

/-- z.enum(allowed).optional(). -/
def parseOptEnum (allowed : List String) (v : JSValue) : Except String (Option String) :=
  match v with
  | .undef => .ok none
  | .str s => if allowed.contains s then .ok (some s) else .error "Invalid enum value"
  | _ => .error "Invalid enum value"

/-- The `interval` field: z.enum([...]).optional().default("month"). -/
def parseIntervalField (v : JSValue) : Except String String :=
  match v with
  | .undef => .ok "month"
  | .str s => if intervalEnum.contains s then .ok s else .error "Invalid enum value"
  | _ => .error "Invalid enum value"

/-- The `date` field: z.string().regex(/^\d{8}-\d{8}$/, "Date must be in
format yyyyMMdd-yyyyMMdd").optional(). -/
def parseDateField (v : JSValue) : Except String (Option String) :=
  match v with
  | .undef => .ok none
  | .str s =>
    if matchesDateRange s then .ok (some s)
    else .error "Date must be in format yyyyMMdd-yyyyMMdd"
  | _ => .error "Expected string"

/-- The `currency` field: z.string().length(3).optional().  JS counts UTF-16
units; the inputs in scope are ASCII, where String.length agrees. -/
def parseCurrencyField (v : JSValue) : Except String (Option String) :=
  match v with
  | .undef => .ok none
  | .str s =>
    if s.length = 3 then .ok (some s)
    else .error "String must contain exactly 3 character(s)"
  | _ => .error "Expected string"

/-- The value of getMRRInput.parse (and getCohortsInput.parse, whose shape
is identical): the validated filters, with the interval default applied. -/
structure MRRParsed where
  date : Option String
  interval : String
  region : Option String
  currency : Option String
  billing_freq : Option String
  payment_method : Option String
  age : Option String
deriving Repr, DecidableEq

/-- The value of getLeadsInput.parse: as MRRParsed but with no billing_freq
field. -/
structure LeadsParsed where
  date : Option String
  interval : String
  region : Option String
  currency : Option String
  payment_method : Option String
  age : Option String
deriving Repr, DecidableEq

/-- getMRRInput.parse (getMRR.ts lines 26-50): an object whose fields pass
the per-field validators above; anything that is not a plain object is
rejected. -/
def getMRRInputParse (args : JSValue) : Except String MRRParsed :=
  match args with
  | .obj _ => do
    let date ← parseDateField (getProp args "date")
    let interval ← parseIntervalField (getProp args "interval")
    let region ← parseOptEnum regionEnum (getProp args "region")
    let currency ← parseCurrencyField (getProp args "currency")
    let billing_freq ← parseOptEnum billingFreqEnum (getProp args "billing_freq")
    let payment_method ← parseOptStr (getProp args "payment_method")
    let age ← parseOptStr (getProp args "age")
    pure ⟨date, interval, region, currency, billing_freq, payment_method, age⟩
  | _ => .error "Expected object"

/-- getLeadsInput.parse (getLeads.ts lines 43-64). -/
def getLeadsInputParse (args : JSValue) : Except String LeadsParsed :=
  match args with
  | .obj _ => do
    let date ← parseDateField (getProp args "date")
    let interval ← parseIntervalField (getProp args "interval")
    let region ← parseOptEnum regionEnum (getProp args "region")
    let currency ← parseCurrencyField (getProp args "currency")
    let payment_method ← parseOptStr (getProp args "payment_method")
    let age ← parseOptStr (getProp args "age")
    pure ⟨date, interval, region, currency, payment_method, age⟩
  | _ => .error "Expected object"

/-- getCohortsInput.parse (getCohorts.ts lines 64-88): the same field list
and validators as getMRRInput. -/
def getCohortsInputParse (args : JSValue) : Except String MRRParsed :=
  getMRRInputParse args

/-! ## Upstream client (src/utils/api.ts, callApi) -/

/-- The process configuration read by callApi: GROWPANEL_API_URL and
GROWPANEL_API_TOKEN (none embeds an unset environment variable). -/
structure Env where
  apiUrl : Option String
  token : Option String

/-- JS falsiness of an optional environment string: unset or empty. -/
def jsFalsyStr : Option String → Bool
  | none => true
  | some s => s.isEmpty

/-- `process.env.GROWPANEL_API_URL || 'https://api.growpanel.io'`. -/
def envBaseUrl (e : Env) : String :=
  match e.apiUrl with
  | some s => if s.isEmpty then "https://api.growpanel.io" else s
  | none => "https://api.growpanel.io"

/-- One upstream HTTP response: status, statusText, the body as text
(response.text(), read on the error path) and as JSON (response.json(),
read on the 2xx path). -/
structure UpstreamResponse where
  status : Nat
  statusText : String
  bodyText : String
  json : JSValue

/-- The upstream collaborator: a function from endpoint and serialized query
to the response it would return. -/
abbrev Upstream := String → List (String × String) → UpstreamResponse

/-- One outbound GET request as issued by callApi: the resolved URL and the
appended query parameters. -/
structure Request where
  url : String
  query : List (String × String)
deriving Repr, DecidableEq

/-- api.ts lines 17-21: `Object.keys(params).forEach(...)` appends every
field whose value is neither undefined nor null, coerced to a string by
URLSearchParams; undefined and null fields are skipped. -/
def buildQuery (params : List (String × JSValue)) : List (String × String) :=
  params.filterMap fun kv =>
    match kv.2 with
    | .undef => none
    | .null => none
    | v => some (kv.1, jsToString v)

/-- api.ts line 39: the message of the error thrown on a non-2xx response. -/
def apiFailMsg (r : UpstreamResponse) : String :=
  "API call failed: " ++ toString r.status ++ " " ++ r.statusText ++ " - " ++ r.bodyText

/-- api.ts callApi.  Returns the outcome together with the list of upstream
requests attempted (empty when the token check throws first).  The URL
`new URL('/reports/' + endpoint, baseUrl)` is embedded as base-plus-path,
which is the resolution for the origin-only bases in scope.  response.ok is
status 200-299. -/
def callApi (env : Env) (up : Upstream) (endpoint : String)
    (params : List (String × JSValue)) : Except String JSValue × List Request :=
  if jsFalsyStr env.token then
    (.error "GROWPANEL_API_KEY environment variable is required", [])
  else
    let url := envBaseUrl env ++ "/reports/" ++ endpoint
    let query := buildQuery params
    let resp := up endpoint query
    if 200 ≤ resp.status ∧ resp.status < 300 then
      (.ok resp.json, [⟨url, query⟩])
    else
      (.error (apiFailMsg resp), [⟨url, query⟩])

/-! ## Tool run functions

The filters object sent upstream is `{...parsed}` with `filters.date`
assigned afterwards when absent.  zod's parsed object carries, in shape
order, exactly the keys whose value is defined (absent optionals are
omitted; `interval` is always present through its default), so a date filter
synthesized by the assignment lands after the parsed keys. -/

/-- A present optional filter as a one-field fragment, an absent one as
nothing. -/
def optField (k : String) : Option String → List (String × JSValue)
  | none => []
  | some s => [(k, .str s)]

/-- The key-value list of the zod-parsed getMRR/getCohorts filters, in shape
order, present keys only. -/
def MRRParsed.toParams (p : MRRParsed) : List (String × JSValue) :=
  (optField "date" p.date)
    ++ [("interval", .str p.interval)]
    ++ optField "region" p.region
    ++ optField "currency" p.currency
    ++ optField "billing_freq" p.billing_freq
    ++ optField "payment_method" p.payment_method
    ++ optField "age" p.age

/-- The key-value list of the zod-parsed getLeads filters. -/
def LeadsParsed.toParams (p : LeadsParsed) : List (String × JSValue) :=
  (optField "date" p.date)
    ++ [("interval", .str p.interval)]
    ++ optField "region" p.region
    ++ optField "currency" p.currency
    ++ optField "payment_method" p.payment_method
    ++ optField "age" p.age

/-- getMRR.ts/getCohorts.ts: the filters object after the default-date
synthesis (`if (!filters.date) filters.date = ...`). -/
def mrrFilters (p : MRRParsed) (today : CivilDate) : List (String × JSValue) :=
  match p.date with
  | some _ => p.toParams
  | none => p.toParams ++ [("date", .str (defaultDateRange today))]

/-- getLeads.ts: the filters object after the default-date synthesis. -/
def leadsFilters (p : LeadsParsed) (today : CivilDate) : List (String × JSValue) :=
  match p.date with
  | some _ => p.toParams
  | none => p.toParams ++ [("date", .str (defaultDateRange today))]

/-- The markdown report getMRR assembles from the validated rows
(getMRR.ts lines 124-166).  The row-by-row currency and percentage
formatting is not referenced by any claim and is abstracted to the
serialized rows. -/
def mrrReportText (rows : List JSValue) : String :=
  "# MRR Report\n\n" ++ stringifyElems rows

/-- getMRR.run (getMRR.ts lines 99-174): validate the arguments, synthesize
the default date, call the upstream client on endpoint "mrr", check the
response carries a `result` array (the getMRRApiResponse wrapper parse; the
30-field row schema is abstracted, being referenced by no claim), and build
the two-block content envelope. -/
def getMRRRun (env : Env) (up : Upstream) (today : CivilDate) (args : JSValue) :
    Except String JSValue × List Request :=
  match getMRRInputParse args with
  | .error e => (.error e, [])
  | .ok p =>
    let out := callApi env up "mrr" (mrrFilters p today)
    (match out.1 with
     | .error e => .error e
     | .ok json =>
       match getProp json "result" with
       | .arr rows =>
         .ok (mcpEnvelope
           [textBlock (.str (mrrReportText rows)),
            textBlock (.str ("Raw data:\n" ++ stringifyElems rows))])
       | _ => .error "Invalid API response",
     out.2)

/-- getLeads.run (getLeads.ts lines 94-114): validate, synthesize the
default date, call endpoint "leads", and return the response serialized in a
single text block (no response validation). -/
def getLeadsRun (env : Env) (up : Upstream) (today : CivilDate) (args : JSValue) :
    Except String JSValue × List Request :=
  match getLeadsInputParse args with
  | .error e => (.error e, [])
  | .ok p =>
    let out := callApi env up "leads" (leadsFilters p today)
    (match out.1 with
     | .error e => .error e
     | .ok json => .ok (mcpEnvelope [textBlock (jsonStringifyJS json)]),
     out.2)

/-- getCohorts.run (getCohorts.ts lines 99-119): as getLeads but with the
getCohorts schema and endpoint "cohort". -/
def getCohortsRun (env : Env) (up : Upstream) (today : CivilDate) (args : JSValue) :
    Except String JSValue × List Request :=
  match getCohortsInputParse args with
  | .error e => (.error e, [])
  | .ok p =>
    let out := callApi env up "cohort" (mrrFilters p today)
    (match out.1 with
     | .error e => .error e
     | .ok json => .ok (mcpEnvelope [textBlock (jsonStringifyJS json)]),
     out.2)

/-! ## The two tool catalogs

The SDK ListTools handler (server.ts lines 67-87) reports each tool's zod
`input.shape`; the POST /events handler (server.ts lines 130-217) carries a
hand-written JSON-schema literal.  Both are embedded syntactically — the zod
chains as the inductive Zod, the literal as JsonSchemaProp records — and
compared through a common extraction (DeclaredField). -/

/-- Syntax of the zod schema chains appearing in the three input shapes. -/
inductive Zod where
  | zstr : Zod
  | enumOf (vals : List String) : Zod
  | regex (base : Zod) (pattern : String) (message : String) : Zod
  | withLength (base : Zod) (n : Nat) : Zod
  | optional (base : Zod) : Zod
  | withDefault (base : Zod) (d : String) : Zod
  | describe (base : Zod) (d : String) : Zod

/-- getMRRInput's shape (getMRR.ts lines 26-50), field by field. -/
def mrrShape : List (String × Zod) :=
  [("date", .describe (.optional (.regex .zstr "^\\d{8}-\\d{8}$"
      "Date must be in format yyyyMMdd-yyyyMMdd"))
      "Reporting period in format yyyyMMdd-yyyyMMdd, e.g., 20241128-20250828. Defaults to last 365 days if omitted"),
   ("interval", .describe (.withDefault (.optional (.enumOf intervalEnum)) "month")
      "Reporting interval. Defaults to 'month'"),
   ("region", .describe (.optional (.enumOf regionEnum))
      "Filter by region (optional)"),
   ("currency", .describe (.optional (.withLength .zstr 3))
      "Filter by 3-letter currency code in lower case, e.g., usd, eur (optional)"),
   ("billing_freq", .describe (.optional (.enumOf billingFreqEnum))
      "Filter by billing frequency (month, year, quarter, week - optional)"),
   ("payment_method", .describe (.optional .zstr)
      "Filter by payment method, e.g., visa, mastercard (optional)"),
   ("age", .describe (.optional .zstr)
      "Filter by customer age group (optional)")]

/-- getLeadsInput's shape (getLeads.ts lines 43-64): no billing_freq. -/
def leadsShape : List (String × Zod) :=
  [("date", .describe (.optional (.regex .zstr "^\\d{8}-\\d{8}$"
      "Date must be in format yyyyMMdd-yyyyMMdd"))
      "Reporting period in format yyyyMMdd-yyyyMMdd. Defaults to last 365 days if omitted"),
   ("interval", .describe (.withDefault (.optional (.enumOf intervalEnum)) "month")
      "Reporting interval. Defaults to 'month'"),
   ("region", .describe (.optional (.enumOf regionEnum))
      "Filter by region (optional)"),
   ("currency", .describe (.optional (.withLength .zstr 3))
      "Filter by 3-letter currency code, e.g., usd, eur (optional)"),
   ("payment_method", .describe (.optional .zstr)
      "Filter by payment method, e.g., visa, mastercard (optional)"),
   ("age", .describe (.optional .zstr)
      "Filter by customer age group (optional)")]

/-- getCohortsInput's shape (getCohorts.ts lines 64-88). -/
def cohortsShape : List (String × Zod) :=
  [("date", .describe (.optional (.regex .zstr "^\\d{8}-\\d{8}$"
      "Date must be in format yyyyMMdd-yyyyMMdd"))
      "Reporting period in format yyyyMMdd-yyyyMMdd. Defaults to last 365 days if omitted"),
   ("interval", .describe (.withDefault (.optional (.enumOf intervalEnum)) "month")
      "Reporting interval. Defaults to 'month'"),
   ("region", .describe (.optional (.enumOf regionEnum))
      "Filter by region (optional)"),
   ("currency", .describe (.optional (.withLength .zstr 3))
      "Filter by 3-letter currency code, e.g., usd, eur (optional)"),
   ("billing_freq", .describe (.optional (.enumOf billingFreqEnum))
      "Billing frequency (optional)"),
   ("payment_method", .describe (.optional .zstr)
      "Filter by payment method (optional)"),
   ("age", .describe (.optional .zstr)
      "Filter by customer age group (optional)")]

/-- getMRR.description (getMRR.ts line 96). -/
def getMRRDescription : String :=
  "Retrieve MRR, ARR, ARPA, ASP, churn metrics, customer movements, LTV, FX adjustments, and net MRR movements from GrowPanel"

/-- getLeads.description (getLeads.ts line 91). -/
def getLeadsDescription : String :=
  "Retrieve lead, trial, and conversion metrics from GrowPanel, including conversion rates, trial stats, and forecasts"

/-- getCohorts.description (getCohorts.ts line 96). -/
def getCohortsDescription : String :=
  "Retrieve cohort metrics from GrowPanel, including MRR and customer retention/churn over periods"

/-- JS `a || b` on strings. -/
def jsOr (s fb : String) : String := if s.isEmpty then fb else s

/-- One catalog entry as returned by the SDK ListTools handler: name,
description (with the `||` fallback of server.ts) and the zod shape. -/
structure StreamToolEntry where
  name : String
  description : String
  shape : List (String × Zod)

/-- The catalog of the streaming transport (server.ts lines 67-87), in
registration order. -/
def streamCatalog : List StreamToolEntry :=
  [⟨"getMRR", jsOr getMRRDescription "Get Monthly Recurring Revenue data", mrrShape⟩,
   ⟨"getLeads", jsOr getLeadsDescription "Get leads data", leadsShape⟩,
   ⟨"getCohorts", jsOr getCohortsDescription "Get cohorts data", cohortsShape⟩]

/-- One property of the hand-written JSON-schema literal in the POST handler:
the literal gives each property exactly a type, an optional enum, an optional
default, and a description — it contains no pattern and no length keys. -/
structure JsonSchemaProp where
  typ : String
  enumVals : Option (List String)
  defaultVal : Option String
  description : String
deriving Repr, DecidableEq

/-- One tool entry of the POST handler's literal: name, description, the
properties in written order, and the (empty) required list. -/
structure PostToolEntry where
  name : String
  description : String
  props : List (String × JsonSchemaProp)
  required : List String

/-- The getMRR properties literal (server.ts lines 135-160). -/
def postMRRProps : List (String × JsonSchemaProp) :=
  [("date", ⟨"string", none, none, "Date filter"⟩),
   ("interval", ⟨"string", some ["day", "week", "month", "quarter", "year"],
      some "month", "Time interval for data aggregation"⟩),
   ("region", ⟨"string", some ["europe", "asia", "north_america", "emea", "apac"],
      none, "Regional filter"⟩),
   ("currency", ⟨"string", none, none, "Currency code"⟩),
   ("billing_freq", ⟨"string", some ["week", "month", "quarter", "year"],
      none, "Billing frequency filter"⟩),
   ("payment_method", ⟨"string", none, none, "Payment method filter"⟩),
   ("age", ⟨"string", none, none, "Customer age filter"⟩)]

/-- The getLeads properties literal (server.ts lines 165-185). -/
def postLeadsProps : List (String × JsonSchemaProp) :=
  [("date", ⟨"string", none, none, "Date filter"⟩),
   ("interval", ⟨"string", some ["day", "week", "month", "quarter", "year"],
      some "month", "Time interval for data aggregation"⟩),
   ("region", ⟨"string", some ["europe", "asia", "north_america", "emea", "apac"],
      none, "Regional filter"⟩),
   ("currency", ⟨"string", none, none, "Currency code"⟩),
   ("payment_method", ⟨"string", none, none, "Payment method filter"⟩),
   ("age", ⟨"string", none, none, "Customer age filter"⟩)]

/-- The getCohorts properties literal (server.ts lines 190-215). -/
def postCohortsProps : List (String × JsonSchemaProp) :=
  [("date", ⟨"string", none, none, "Date filter"⟩),
   ("interval", ⟨"string", some ["day", "week", "month", "quarter", "year"],
      some "month", "Time interval for data aggregation"⟩),
   ("region", ⟨"string", some ["europe", "asia", "north_america", "emea", "apac"],
      none, "Regional filter"⟩),
   ("currency", ⟨"string", none, none, "Currency code"⟩),
   ("billing_freq", ⟨"string", some ["week", "month", "quarter", "year"],
      none, "Billing frequency filter"⟩),
   ("payment_method", ⟨"string", none, none, "Payment method filter"⟩),
   ("age", ⟨"string", none, none, "Customer age filter"⟩)]

/-- The catalog of the request/response transport (server.ts lines 130-217),
with the same `||` description fallbacks. -/
def postCatalog : List PostToolEntry :=
  [⟨"getMRR", jsOr getMRRDescription "Get Monthly Recurring Revenue data", postMRRProps, []⟩,
   ⟨"getLeads", jsOr getLeadsDescription "Get leads data", postLeadsProps, []⟩,
   ⟨"getCohorts", jsOr getCohortsDescription "Get cohorts data", postCohortsProps, []⟩]

/-- The declared surface of one input field, the common ground on which the
two catalogs are compared: field name, enumeration, default, regex pattern
and exact-length constraint. -/
structure DeclaredField where
  fieldName : String
  enumVals : Option (List String)
  defaultVal : Option String
  pattern : Option String
  lengthConstraint : Option Nat
deriving Repr, DecidableEq

/-- The enumeration a zod chain declares. -/
def Zod.enumValsOf : Zod → Option (List String)
  | .zstr => none
  | .enumOf vs => some vs
  | .regex b _ _ => b.enumValsOf
  | .withLength b _ => b.enumValsOf
  | .optional b => b.enumValsOf
  | .withDefault b _ => b.enumValsOf
  | .describe b _ => b.enumValsOf

/-- The default a zod chain declares. -/
def Zod.defaultValOf : Zod → Option String
  | .zstr => none
  | .enumOf _ => none
  | .regex b _ _ => b.defaultValOf
  | .withLength b _ => b.defaultValOf
  | .optional b => b.defaultValOf
  | .withDefault _ d => some d
  | .describe b _ => b.defaultValOf

/-- The regex pattern a zod chain declares. -/
def Zod.patternOf : Zod → Option String
  | .zstr => none
  | .enumOf _ => none
  | .regex _ p _ => some p
  | .withLength b _ => b.patternOf
  | .optional b => b.patternOf
  | .withDefault b _ => b.patternOf
  | .describe b _ => b.patternOf

/-- The exact-length constraint a zod chain declares. -/
def Zod.lengthOf : Zod → Option Nat
  | .zstr => none
  | .enumOf _ => none
  | .regex b _ _ => b.lengthOf
  | .withLength _ n => some n
  | .optional b => b.lengthOf
  | .withDefault b _ => b.lengthOf
  | .describe b _ => b.lengthOf

/-- The declared surface of a zod shape field. -/
def declaredOfZod (n : String) (z : Zod) : DeclaredField :=
  ⟨n, z.enumValsOf, z.defaultValOf, z.patternOf, z.lengthOf⟩

/-- The declared surface of a literal schema property; the literal declares
no pattern and no length constraint for any field. -/
def declaredOfProp (n : String) (p : JsonSchemaProp) : DeclaredField :=
  ⟨n, p.enumVals, p.defaultVal, none, none⟩

/-- The streaming catalog, per tool, as declared surfaces. -/
def streamDeclared : List (String × List DeclaredField) :=
  streamCatalog.map fun t => (t.name, t.shape.map fun kv => declaredOfZod kv.1 kv.2)

/-- The request/response catalog, per tool, as declared surfaces. -/
def postDeclared : List (String × List DeclaredField) :=
  postCatalog.map fun t => (t.name, t.props.map fun kv => declaredOfProp kv.1 kv.2)

/-- Equality of declared enumerations as sets (order disregarded). -/
def enumSetEq : Option (List String) → Option (List String) → Bool
  | none, none => true
  | some xs, some ys => xs.all (fun x => ys.contains x) && ys.all (fun y => xs.contains y)
  | _, _ => false

/-- Agreement of two declared fields on name, default and enumeration set
(constraints disregarded). -/
def fieldAgrees (a b : DeclaredField) : Bool :=
  a.fieldName == b.fieldName && a.defaultVal == b.defaultVal
    && enumSetEq a.enumVals b.enumVals

/-! ## Transport adapters (server.ts) -/

/-- A JSON-RPC success response object as written by the POST handler. -/
def rpcResultResp (mid result : JSValue) : JSValue :=
  .obj [("jsonrpc", .str "2.0"), ("id", mid), ("result", result)]

/-- A JSON-RPC error response object as written by the POST handler (the
source writes a `data` key only where it has data to attach). -/
def rpcErrorResp (mid : JSValue) (code : Int) (message : String)
    (data : Option JSValue) : JSValue :=
  .obj [("jsonrpc", .str "2.0"), ("id", mid),
        ("error", .obj ([("code", .num code), ("message", .str message)]
          ++ match data with
             | some d => [("data", d)]
             | none => []))]

/-- Rendering of one literal property to the JSON value the POST handler
sends (key order as written: type, enum, default, description). -/
def renderProp (p : JsonSchemaProp) : JSValue :=
  .obj ([("type", .str p.typ)]
    ++ (match p.enumVals with
        | some vs => [("enum", JSValue.arr (vs.map JSValue.str))]
        | none => [])
    ++ (match p.defaultVal with
        | some d => [("default", JSValue.str d)]
        | none => [])
    ++ [("description", .str p.description)])

/-- Rendering of one tool entry of the POST literal. -/
def renderPostTool (t : PostToolEntry) : JSValue :=
  .obj [("name", .str t.name), ("description", .str t.description),
        ("inputSchema", .obj
          [("type", .str "object"),
           ("properties", .obj (t.props.map fun kv => (kv.1, renderProp kv.2))),
           ("required", .arr (t.required.map JSValue.str))])]

/-- The result value the POST handler sends for tools/list: a constant. -/
def postToolsListResult : JSValue :=
  .obj [("tools", .arr (postCatalog.map renderPostTool))]

/-- The frame the POST handler puts around one tools/call outcome: success
values pass through wrapTool into a result response; a thrown error becomes
the -32603 response with the error message as data (server.ts lines 260-271). -/
def frameCallOutcome (mid : JSValue) (out : Except String JSValue × List Request) :
    Nat × JSValue × List Request :=
  match out with
  | (.ok v, reqs) => (200, rpcResultResp mid (wrapToolValue v), reqs)
  | (.error e, reqs) =>
    (200, rpcErrorResp mid (-32603) "Internal error" (some (.str e)), reqs)

/-- The POST handler's tools/call switch (server.ts lines 224-271).  The JS
`===` of the switch matches only the exact strings, so every non-string name
and every other string falls to the default -32601 branch. -/
def handleToolCall (env : Env) (up : Upstream) (today : CivilDate)
    (mid name args : JSValue) : Nat × JSValue × List Request :=
  match name with
  | .str s =>
    if s = "getMRR" then frameCallOutcome mid (getMRRRun env up today args)
    else if s = "getLeads" then frameCallOutcome mid (getLeadsRun env up today args)
    else if s = "getCohorts" then frameCallOutcome mid (getCohortsRun env up today args)
    else (200, rpcErrorResp mid (-32601) ("Unknown tool: " ++ jsToString name) none, [])
  | _ => (200, rpcErrorResp mid (-32601) ("Unknown tool: " ++ jsToString name) none, [])

/-- The POST /events request/response adapter (server.ts lines 118-293).
Input is the outcome of JSON.parse on the request body (.error carries the
parse exception's message); output is HTTP status, response body and the
upstream requests issued.  The handler answers 200 with a routed response,
or 400 with the -32700 parse-error response and a null id. -/
def handlePost (env : Env) (up : Upstream) (today : CivilDate)
    (body : Except String JSValue) : Nat × JSValue × List Request :=
  match body with
  | .error emsg =>
    (400, rpcErrorResp .null (-32700) "Parse error" (some (.str emsg)), [])
  | .ok msg =>
    match getProp msg "method" with
    | .str "tools/list" =>
      (200, rpcResultResp (getProp msg "id") postToolsListResult, [])
    | .str "tools/call" =>
      handleToolCall env up today (getProp msg "id")
        (getProp (getProp msg "params") "name")
        (getProp (getProp msg "params") "arguments")
    | _ =>
      (200, rpcErrorResp (getProp msg "id") (-32601) "Method not found" none, [])

/-- A well-formed tools/call JSON-RPC message, as a client would POST it. -/
def callMsg (mid name args : JSValue) : JSValue :=
  .obj [("jsonrpc", .str "2.0"), ("id", mid), ("method", .str "tools/call"),
        ("params", .obj [("name", name), ("arguments", args)])]

/-- A well-formed tools/list JSON-RPC message. -/
def listMsg (mid : JSValue) : JSValue :=
  .obj [("jsonrpc", .str "2.0"), ("id", mid), ("method", .str "tools/list")]

/-- Outcome of the SDK CallTool handler (server.ts lines 90-103) before the
SDK frames it: a wrapped success value, the default branch's thrown
unknown-tool error, or an error thrown during execution (rethrown unchanged
by wrapTool's catch). -/
inductive StreamCallOutcome where
  | ok (v : JSValue)
  | unknownTool (name : JSValue)
  | execFailed (emsg : String)
deriving Repr

/-- The SDK CallTool handler on the streaming transport (server.ts lines
90-103): dispatch by exact name, wrap successes, throw for unknown names
without invoking any run function. -/
def streamCallTool (env : Env) (up : Upstream) (today : CivilDate)
    (name args : JSValue) : StreamCallOutcome × List Request :=
  match name with
  | .str s =>
    if s = "getMRR" then
      match getMRRRun env up today args with
      | (.ok v, reqs) => (.ok (wrapToolValue v), reqs)
      | (.error e, reqs) => (.execFailed e, reqs)
    else if s = "getLeads" then
      match getLeadsRun env up today args with
      | (.ok v, reqs) => (.ok (wrapToolValue v), reqs)
      | (.error e, reqs) => (.execFailed e, reqs)
    else if s = "getCohorts" then
      match getCohortsRun env up today args with
      | (.ok v, reqs) => (.ok (wrapToolValue v), reqs)
      | (.error e, reqs) => (.execFailed e, reqs)
    else (.unknownTool name, [])
  | _ => (.unknownTool name, [])

/-- A JSON-RPC error as framed on the wire. -/
structure RpcErr where
  code : Int
  message : String
deriving Repr, DecidableEq

/-- Modelled from the spec: the JSON-RPC framing of a CallTool outcome on
the streaming transport is performed by the MCP SDK, an external dependency
whose code is not part of this repository's sources.  Per the spec
(sections 6 and 7), an unknown tool name inside tools/call is reported as
MethodNotFound (-32601) and a failure during tool execution as
InternalError (-32603). -/
def sdkFrameStreamCall : StreamCallOutcome → Except RpcErr JSValue
  | .ok v => .ok v
  | .unknownTool _ => .error ⟨-32601, "Method not found"⟩
  | .execFailed e => .error ⟨-32603, e⟩

/-- Substring containment, stated structurally. -/
def containsSub (needle hay : String) : Prop :=
  ∃ pre post, hay = pre ++ needle ++ post

/-! ## Concrete fixtures used to instantiate the theorems -/

/-- A configuration with a bearer token present and no base-URL override. -/
def envW : Env := ⟨none, some "token"⟩

/-- An upstream collaborator answering 200 with an empty result list. -/
def upW : Upstream := fun _ _ => ⟨200, "OK", "", .obj [("result", .arr [])]⟩

/-- A concrete valid date for instantiation. -/
def dateW : CivilDate := ⟨2026, 10, 11⟩

/-- A concrete upstream failure: HTTP 500 with body "rate limited". -/
def respW : UpstreamResponse := ⟨500, "Internal Server Error", "rate limited", .null⟩

/-! ## Helper lemmas -/

theorem daysInMonth_ge (y m : Nat) : 28 ≤ daysInMonth y m := by
  unfold daysInMonth
  split
  · split <;> omega
  · split <;> omega

theorem daysInMonth_le (y m : Nat) : daysInMonth y m ≤ 31 := by
  unfold daysInMonth
  split
  · split <;> omega
  · split <;> omega

theorem daysInMonth_december (y : Nat) : daysInMonth y 12 = 31 := rfl

theorem predDay_valid {d : CivilDate} (h : d.valid) : (predDay d).valid := by
  obtain ⟨y, m, dd⟩ := d
  unfold CivilDate.valid at h
  dsimp only at h
  unfold predDay
  dsimp only
  by_cases h1 : 1 < dd
  · rw [if_pos h1]
    unfold CivilDate.valid
    dsimp only
    omega
  · rw [if_neg h1]
    by_cases h2 : 1 < m
    · rw [if_pos h2]
      unfold CivilDate.valid
      dsimp only
      have g1 := daysInMonth_ge y (m - 1)
      omega
    · rw [if_neg h2]
      unfold CivilDate.valid
      dsimp only
      rw [daysInMonth_december]
      omega

theorem predDay_year (d : CivilDate) :
    d.year - 1 ≤ (predDay d).year ∧ (predDay d).year ≤ d.year := by
  unfold predDay
  split
  · dsimp only; omega
  · split
    · dsimp only; omega
    · dsimp only; omega

theorem succDay_predDay {d : CivilDate} (h : d.valid) (hy : 1 ≤ d.year) :
    succDay (predDay d) = d := by
  obtain ⟨y, m, dd⟩ := d
  unfold CivilDate.valid at h
  dsimp only at h hy
  have g1 := daysInMonth_ge y (m - 1)
  have g2 := daysInMonth_le y (m - 1)
  have g3 := daysInMonth_december (y - 1)
  have g4 := daysInMonth_ge y m
  unfold predDay
  dsimp only
  split
  · unfold succDay
    dsimp only
    rw [if_pos (by omega)]
    simp only [CivilDate.mk.injEq, true_and]
    omega
  · split
    · unfold succDay
      dsimp only
      rw [if_neg (by omega), if_pos (by omega)]
      simp only [CivilDate.mk.injEq, true_and]
      omega
    · unfold succDay
      dsimp only
      rw [if_neg (by omega), if_neg (by omega)]
      simp only [CivilDate.mk.injEq, true_and]
      omega

theorem subDays_valid : ∀ (n : Nat) {d : CivilDate}, d.valid → (subDays n d).valid
  | 0, _, h => h
  | n + 1, _, h => subDays_valid n (predDay_valid h)

theorem subDays_year : ∀ (n : Nat) (d : CivilDate),
    d.year - n ≤ (subDays n d).year ∧ (subDays n d).year ≤ d.year
  | 0, d => by simp [subDays]
  | n + 1, d => by
    have h1 := predDay_year d
    have h2 := subDays_year n (predDay d)
    show d.year - (n + 1) ≤ (subDays n (predDay d)).year
      ∧ (subDays n (predDay d)).year ≤ d.year
    omega

theorem subDays_add (a b : Nat) (d : CivilDate) :
    subDays (a + b) d = subDays a (subDays b d) := by
  induction b generalizing d with
  | zero => rfl
  | succ b ih =>
    show subDays (a + b) (predDay d) = subDays a (subDays b (predDay d))
    exact ih (predDay d)

theorem addDays_subDays : ∀ (n : Nat) (d : CivilDate),
    d.valid → n < d.year → addDays n (subDays n d) = d
  | 0, _, _, _ => rfl
  | n + 1, d, h, hy => by
    have hpv := predDay_valid h
    have hp := predDay_year d
    have ih := addDays_subDays n (predDay d) hpv (by omega)
    show succDay (addDays n (subDays n (predDay d))) = d
    rw [ih]
    exact succDay_predDay h (by omega)

theorem digitChar_isDigit (n : Nat) : (digitChar n).isDigit = true := by
  unfold digitChar
  have h10 : n % 10 = 0 ∨ n % 10 = 1 ∨ n % 10 = 2 ∨ n % 10 = 3 ∨ n % 10 = 4
      ∨ n % 10 = 5 ∨ n % 10 = 6 ∨ n % 10 = 7 ∨ n % 10 = 8 ∨ n % 10 = 9 := by omega
  rcases h10 with h | h | h | h | h | h | h | h | h | h <;> rw [h] <;> decide

theorem matchesDateRange_fmt (a b : CivilDate) :
    matchesDateRange (fmt8 a ++ "-" ++ fmt8 b) = true := by
  have hd : (fmt8 a ++ "-" ++ fmt8 b).data
      = [digitChar (a.year / 1000), digitChar (a.year / 100), digitChar (a.year / 10),
         digitChar a.year, digitChar (a.month / 10), digitChar a.month,
         digitChar (a.day / 10), digitChar a.day, '-',
         digitChar (b.year / 1000), digitChar (b.year / 100), digitChar (b.year / 10),
         digitChar b.year, digitChar (b.month / 10), digitChar b.month,
         digitChar (b.day / 10), digitChar b.day] := rfl
  unfold matchesDateRange
  rw [hd]
  simp [digitChar_isDigit]

theorem callApi_requests (env : Env) (up : Upstream) (ep : String)
    (ps : List (String × JSValue)) (htok : jsFalsyStr env.token = false) :
    (callApi env up ep ps).2 = [⟨envBaseUrl env ++ "/reports/" ++ ep, buildQuery ps⟩] := by
  unfold callApi
  rw [htok]
  simp only [Bool.false_eq_true, if_false]
  split <;> rfl

theorem callApi_fail (env : Env) (ep : String) (ps : List (String × JSValue))
    (r : UpstreamResponse) (htok : jsFalsyStr env.token = false)
    (hbad : ¬(200 ≤ r.status ∧ r.status < 300)) :
    (callApi env (fun _ _ => r) ep ps).1 = .error (apiFailMsg r) := by
  unfold callApi
  rw [htok]
  simp only [Bool.false_eq_true, if_false]
  rw [if_neg hbad]

theorem mem_buildQuery_of {params : List (String × JSValue)} {k : String} {v : JSValue}
    (hm : (k, v) ∈ params) (h1 : v ≠ .undef) (h2 : v ≠ .null) :
    (k, jsToString v) ∈ buildQuery params := by
  unfold buildQuery
  apply List.mem_filterMap.mpr
  refine ⟨(k, v), hm, ?_⟩
  cases v <;> simp_all

theorem buildQuery_mem_char {params : List (String × JSValue)} {kq : String × String}
    (h : kq ∈ buildQuery params) :
    ∃ v, (kq.1, v) ∈ params ∧ v ≠ .undef ∧ v ≠ .null ∧ kq.2 = jsToString v := by
  unfold buildQuery at h
  obtain ⟨⟨k, v⟩, hm, he⟩ := List.mem_filterMap.mp h
  obtain ⟨k1, q⟩ := kq
  cases v
  case undef => exact absurd he (by simp)
  case null => exact absurd he (by simp)
  all_goals
    simp only [Option.some.injEq, Prod.mk.injEq] at he
    obtain ⟨rfl, rfl⟩ := he
    exact ⟨_, hm, by intro hh; exact JSValue.noConfusion hh,
      by intro hh; exact JSValue.noConfusion hh, rfl⟩



/-! ## Claims -/

/-- Claim C1, counterexample: the catalog entries served by the two
transports do not declare the same input shape bit-for-bit.  The declared
surfaces differ — concretely, the streaming catalog declares the length-3
constraint on getMRR's currency field (and the date regex, and the zod
billing_freq enumeration order), while the hand-written literal of the POST
handler declares none of these. -/
theorem growpanel_C1_counterexample :
    streamDeclared ≠ postDeclared
    ∧ declaredOfZod "currency" (.describe (.optional (.withLength .zstr 3))
        "Filter by 3-letter currency code in lower case, e.g., usd, eur (optional)")
      ≠ declaredOfProp "currency" ⟨"string", none, none, "Currency code"⟩ := by
  constructor
  · decide
  · decide

/-- Claim C1, amended: for every registered tool the two catalogs declare
the same tool names, the same field names in the same order, the same
defaults and the same enumerations as sets; but they are not bit-for-bit
identical — the request/response literal omits the date regex pattern and
the currency length-3 constraint that the zod schemas declare, and lists the
billing_freq enumeration in a different order. -/
theorem growpanel_C1_amended :
    streamDeclared.map Prod.fst = postDeclared.map Prod.fst
    ∧ (streamDeclared.map fun t => t.2.map DeclaredField.fieldName)
        = (postDeclared.map fun t => t.2.map DeclaredField.fieldName)
    ∧ ((streamDeclared.zip postDeclared).all fun tp =>
         (tp.1.2.zip tp.2.2).all fun fp => fieldAgrees fp.1 fp.2) = true
    ∧ (streamDeclared.map fun t => t.2.map DeclaredField.pattern)
        ≠ (postDeclared.map fun t => t.2.map DeclaredField.pattern)
    ∧ (streamDeclared.map fun t => t.2.map DeclaredField.lengthConstraint)
        ≠ (postDeclared.map fun t => t.2.map DeclaredField.lengthConstraint)
    ∧ (streamDeclared.map fun t => t.2.map DeclaredField.enumVals)
        ≠ (postDeclared.map fun t => t.2.map DeclaredField.enumVals) := by
  refine ⟨by decide, by decide, by decide, by decide, by decide, by decide⟩

/-- Claim C10: wrapTool returns the value itself whenever it is truthy with
a truthy `content` property (no structural check of `content`); otherwise an
array becomes an envelope with one text block per element (strings verbatim,
others JSON-serialized); otherwise a single-block envelope around the value;
and in particular an object whose `content` is a truthy non-block-array
value passes through unwrapped. -/
theorem growpanel_C10 (v : JSValue) :
    (truthy v = true → truthy (getProp v "content") = true → wrapToolValue v = v)
    ∧ (∀ es, v = .arr es →
        wrapToolValue v = mcpEnvelope (es.map fun item => textBlock (jsTextOf item)))
    ∧ ((truthy v && truthy (getProp v "content")) = false → (∀ es, v ≠ .arr es) →
        wrapToolValue v = mcpEnvelope [textBlock (jsTextOf v)])
    ∧ wrapToolValue (.obj [("content", .str "not a block array")])
        = .obj [("content", .str "not a block array")] := by
  refine ⟨?_, ?_, ?_, rfl⟩
  · intro h1 h2
    unfold wrapToolValue
    rw [h1, h2]
    rfl
  · intro es he
    subst he
    unfold wrapToolValue
    rfl
  · intro hc hne
    unfold wrapToolValue
    rw [hc]
    simp only [Bool.false_eq_true, if_false]

/-- Claim C10 witness: instantiating the theorem at an array of a string and
a number, at a falsy value, and at the pass-through object. -/
theorem growpanel_C10_witness :
    wrapToolValue (.arr [.str "a", .str "b"])
      = mcpEnvelope [textBlock (.str "a"), textBlock (.str "b")]
    ∧ wrapToolValue .null = mcpEnvelope [textBlock (.str "null")]
    ∧ wrapToolValue (.obj [("content", .str "not a block array")])
      = .obj [("content", .str "not a block array")] :=
  ⟨(growpanel_C10 (.arr [.str "a", .str "b"])).2.1 [.str "a", .str "b"] rfl,
   (growpanel_C10 .null).2.2.1 rfl (fun _ h => JSValue.noConfusion h),
   (growpanel_C10 .null).2.2.2⟩

/-- Claim C8: a POST body that JSON.parse rejects is answered with HTTP 400
and a JSON-RPC error body with code -32700 (Parse error) and id null, with
no upstream request. -/
theorem growpanel_C8 (env : Env) (up : Upstream) (today : CivilDate) (emsg : String) :
    handlePost env up today (.error emsg)
      = (400, rpcErrorResp .null (-32700) "Parse error" (some (.str emsg)), []) := rfl

/-- Claim C6: when the bearer credential is absent from the configuration,
callApi throws the configuration error before any network request, for every
endpoint and filter set. -/
theorem growpanel_C6 (env : Env) (up : Upstream) (ep : String)
    (ps : List (String × JSValue)) (h : env.token = none) :
    callApi env up ep ps
      = (.error "GROWPANEL_API_KEY environment variable is required", []) := by
  unfold callApi
  rw [h]
  rfl

/-- Claim C6 witness: a concrete call with the token unset. -/
theorem growpanel_C6_witness :
    callApi ⟨none, none⟩ upW "mrr" [("interval", .str "month")]
      = (.error "GROWPANEL_API_KEY environment variable is required", []) :=
  growpanel_C6 ⟨none, none⟩ upW "mrr" [("interval", .str "month")] rfl

/-- Claim C5, counterexample: callApi does produce an empty-string query
parameter when a filter field is present with an empty-string value, so "no
empty-string parameters" does not hold over every filter mapping — the call
below issues exactly one GET whose query carries `payment_method=` with the
empty value. -/
theorem growpanel_C5_counterexample :
    (callApi ⟨none, some "tok"⟩ (fun _ _ => ⟨200, "OK", "", .null⟩) "mrr"
        [("payment_method", .str "")]).2
      = [⟨"https://api.growpanel.io/reports/mrr", [("payment_method", "")]⟩] := rfl

/-- Claim C5, amended: for every endpoint and filter mapping (with the
credential present), callApi issues a single GET against the configured base
URL plus /reports/{endpoint}; every field whose value is neither undefined
nor null is appended as a query parameter; undefined and null fields are
omitted entirely, so an absent field never leaves an empty-string parameter
behind — but a field present with an empty-string value is serialized with
an empty value. -/
theorem growpanel_C5_amended (env : Env) (up : Upstream) (ep : String)
    (ps : List (String × JSValue)) (htok : jsFalsyStr env.token = false) :
    (callApi env up ep ps).2 = [⟨envBaseUrl env ++ "/reports/" ++ ep, buildQuery ps⟩]
    ∧ (∀ k v, (k, v) ∈ ps → v ≠ .undef → v ≠ .null → (k, jsToString v) ∈ buildQuery ps)
    ∧ (∀ kq, kq ∈ buildQuery ps →
        ∃ v, (kq.1, v) ∈ ps ∧ v ≠ .undef ∧ v ≠ .null ∧ kq.2 = jsToString v) :=
  ⟨callApi_requests env up ep ps htok,
   fun _ _ hm h1 h2 => mem_buildQuery_of hm h1 h2,
   fun _ h => buildQuery_mem_char h⟩

/-- Claim C5 witness: a concrete call with one present, one null and one
undefined field issues one GET whose query holds exactly the present field. -/
theorem growpanel_C5_witness :
    (callApi envW upW "leads"
        [("date", .str "20240101-20240201"), ("region", .null), ("age", .undef)]).2
      = [⟨"https://api.growpanel.io/reports/leads", [("date", "20240101-20240201")]⟩]
    ∧ ("date", "20240101-20240201") ∈ buildQuery
        [("date", .str "20240101-20240201"), ("region", .null), ("age", .undef)] := by
  have h := growpanel_C5_amended envW upW "leads"
    [("date", .str "20240101-20240201"), ("region", .null), ("age", .undef)] rfl
  exact ⟨h.1, h.2.1 "date" (.str "20240101-20240201") (by simp)
    (fun hh => JSValue.noConfusion hh) (fun hh => JSValue.noConfusion hh)⟩

/-- Claim C2: a tools/call naming anything other than getMRR, getLeads or
getCohorts invokes no execution function on either transport (no upstream
request is attempted) and is answered with JSON-RPC error -32601: directly
so by the request/response handler, and on the streaming transport through
the handler's thrown unknown-tool error, which the SDK (modelled from the
spec) frames as MethodNotFound. -/
theorem growpanel_C2 (env : Env) (up : Upstream) (today : CivilDate)
    (mid name args : JSValue)
    (h1 : name ≠ .str "getMRR") (h2 : name ≠ .str "getLeads")
    (h3 : name ≠ .str "getCohorts") :
    handlePost env up today (.ok (callMsg mid name args))
      = (200, rpcErrorResp mid (-32601) ("Unknown tool: " ++ jsToString name) none, [])
    ∧ streamCallTool env up today name args = (.unknownTool name, [])
    ∧ sdkFrameStreamCall (streamCallTool env up today name args).1
      = .error ⟨-32601, "Method not found"⟩ := by
  have hstream : streamCallTool env up today name args = (.unknownTool name, []) := by
    cases name with
    | str s =>
      have hs1 : s ≠ "getMRR" := fun hh => h1 (by rw [hh])
      have hs2 : s ≠ "getLeads" := fun hh => h2 (by rw [hh])
      have hs3 : s ≠ "getCohorts" := fun hh => h3 (by rw [hh])
      unfold streamCallTool
      dsimp only
      rw [if_neg hs1, if_neg hs2, if_neg hs3]
    | undef => rfl
    | null => rfl
    | boolean b => rfl
    | num n => rfl
    | arr es => rfl
    | obj fs => rfl
  have hpost : handlePost env up today (.ok (callMsg mid name args))
      = handleToolCall env up today mid name args := rfl
  refine ⟨?_, hstream, by rw [hstream]; rfl⟩
  rw [hpost]
  cases name with
  | str s =>
    have hs1 : s ≠ "getMRR" := fun hh => h1 (by rw [hh])
    have hs2 : s ≠ "getLeads" := fun hh => h2 (by rw [hh])
    have hs3 : s ≠ "getCohorts" := fun hh => h3 (by rw [hh])
    unfold handleToolCall
    dsimp only
    rw [if_neg hs1, if_neg hs2, if_neg hs3]
  | undef => rfl
  | null => rfl
  | boolean b => rfl
  | num n => rfl
  | arr es => rfl
  | obj fs => rfl

/-- Claim C2 witness: calling the unregistered tool getForecast. -/
theorem growpanel_C2_witness :
    handlePost envW upW dateW (.ok (callMsg (.num 7) (.str "getForecast") (.obj [])))
      = (200, rpcErrorResp (.num 7) (-32601) "Unknown tool: getForecast" none, [])
    ∧ streamCallTool envW upW dateW (.str "getForecast") (.obj [])
      = (.unknownTool (.str "getForecast"), []) := by
  have h := growpanel_C2 envW upW dateW (.num 7) (.str "getForecast") (.obj [])
    (fun hh => by injection hh with hs; exact absurd hs (by decide))
    (fun hh => by injection hh with hs; exact absurd hs (by decide))
    (fun hh => by injection hh with hs; exact absurd hs (by decide))
  exact ⟨h.1, h.2.1⟩

/-- Claim C3: whenever a tool's raw arguments fail its zod input schema, the
run function throws the validation error before the upstream client is
called — no upstream request is attempted — and the request/response
transport answers with the -32603 error object (never a result envelope),
while the streaming handler ends in the thrown error. -/
theorem growpanel_C3 (env : Env) (up : Upstream) (today : CivilDate)
    (mid args : JSValue) (e : String) :
    (getMRRInputParse args = .error e →
      getMRRRun env up today args = (.error e, [])
      ∧ handlePost env up today (.ok (callMsg mid (.str "getMRR") args))
          = (200, rpcErrorResp mid (-32603) "Internal error" (some (.str e)), [])
      ∧ streamCallTool env up today (.str "getMRR") args = (.execFailed e, []))
    ∧ (getLeadsInputParse args = .error e →
      getLeadsRun env up today args = (.error e, [])
      ∧ handlePost env up today (.ok (callMsg mid (.str "getLeads") args))
          = (200, rpcErrorResp mid (-32603) "Internal error" (some (.str e)), [])
      ∧ streamCallTool env up today (.str "getLeads") args = (.execFailed e, []))
    ∧ (getCohortsInputParse args = .error e →
      getCohortsRun env up today args = (.error e, [])
      ∧ handlePost env up today (.ok (callMsg mid (.str "getCohorts") args))
          = (200, rpcErrorResp mid (-32603) "Internal error" (some (.str e)), [])
      ∧ streamCallTool env up today (.str "getCohorts") args = (.execFailed e, [])) := by
  refine ⟨fun hp => ?_, fun hp => ?_, fun hp => ?_⟩
  · have hrun : getMRRRun env up today args = (.error e, []) := by
      unfold getMRRRun
      rw [hp]
    refine ⟨hrun, ?_, ?_⟩
    · have hpost : handlePost env up today (.ok (callMsg mid (.str "getMRR") args))
          = handleToolCall env up today mid (.str "getMRR") args := rfl
      rw [hpost]
      unfold handleToolCall
      dsimp only
      rw [if_pos rfl, hrun]
      rfl
    · unfold streamCallTool
      dsimp only
      rw [if_pos rfl, hrun]
  · have hrun : getLeadsRun env up today args = (.error e, []) := by
      unfold getLeadsRun
      rw [hp]
    refine ⟨hrun, ?_, ?_⟩
    · have hpost : handlePost env up today (.ok (callMsg mid (.str "getLeads") args))
          = handleToolCall env up today mid (.str "getLeads") args := rfl
      rw [hpost]
      unfold handleToolCall
      dsimp only
      rw [if_neg (by decide), if_pos rfl, hrun]
      rfl
    · unfold streamCallTool
      dsimp only
      rw [if_neg (by decide), if_pos rfl, hrun]
  · have hrun : getCohortsRun env up today args = (.error e, []) := by
      unfold getCohortsRun
      rw [hp]
    refine ⟨hrun, ?_, ?_⟩
    · have hpost : handlePost env up today (.ok (callMsg mid (.str "getCohorts") args))
          = handleToolCall env up today mid (.str "getCohorts") args := rfl
      rw [hpost]
      unfold handleToolCall
      dsimp only
      rw [if_neg (by decide), if_neg (by decide), if_pos rfl, hrun]
      rfl
    · unfold streamCallTool
      dsimp only
      rw [if_neg (by decide), if_neg (by decide), if_pos rfl, hrun]

/-- Claim C3 witness: getCohorts called with a 4-character currency (the
spec's Scenario C) fails validation, attempts no upstream request, and the
transport answers with the error object. -/
theorem growpanel_C3_witness :
    getCohortsRun envW upW dateW (.obj [("currency", .str "usdx")])
      = (.error "String must contain exactly 3 character(s)", [])
    ∧ handlePost envW upW dateW
        (.ok (callMsg (.num 1) (.str "getCohorts") (.obj [("currency", .str "usdx")])))
      = (200, rpcErrorResp (.num 1) (-32603) "Internal error"
          (some (.str "String must contain exactly 3 character(s)")), []) := by
  have h := (growpanel_C3 envW upW dateW (.num 1) (.obj [("currency", .str "usdx")])
    "String must contain exactly 3 character(s)").2.2 rfl
  exact ⟨h.1, h.2.1⟩

/-- Claim C9: tools/list is answered from a constant catalog: any two
tools/list requests, even against different configurations, upstream
collaborators, dates or message ids, receive responses with the same result
member, that result is the fixed catalog value, and no upstream request is
issued. -/
theorem growpanel_C9 (env₁ env₂ : Env) (up₁ up₂ : Upstream) (t₁ t₂ : CivilDate)
    (m₁ m₂ : JSValue)
    (h₁ : getProp m₁ "method" = .str "tools/list")
    (h₂ : getProp m₂ "method" = .str "tools/list") :
    getProp (handlePost env₁ up₁ t₁ (.ok m₁)).2.1 "result"
      = getProp (handlePost env₂ up₂ t₂ (.ok m₂)).2.1 "result"
    ∧ getProp (handlePost env₁ up₁ t₁ (.ok m₁)).2.1 "result" = postToolsListResult
    ∧ (handlePost env₁ up₁ t₁ (.ok m₁)).2.2 = [] := by
  have e₁ : handlePost env₁ up₁ t₁ (.ok m₁)
      = (200, rpcResultResp (getProp m₁ "id") postToolsListResult, []) := by
    unfold handlePost
    dsimp only
    rw [h₁]
    rfl
  have e₂ : handlePost env₂ up₂ t₂ (.ok m₂)
      = (200, rpcResultResp (getProp m₂ "id") postToolsListResult, []) := by
    unfold handlePost
    dsimp only
    rw [h₂]
    rfl
  rw [e₁, e₂]
  exact ⟨rfl, rfl, rfl⟩

/-- Claim C9 witness: two successive tools/list calls with different ids and
different configurations receive the identical catalog result. -/
theorem growpanel_C9_witness :
    getProp (handlePost envW upW dateW (.ok (listMsg (.num 1)))).2.1 "result"
      = getProp (handlePost ⟨some "http://x", none⟩ upW dateW (.ok (listMsg (.num 2)))).2.1 "result"
    ∧ getProp (handlePost envW upW dateW (.ok (listMsg (.num 1)))).2.1 "result"
      = postToolsListResult :=
  ⟨(growpanel_C9 envW ⟨some "http://x", none⟩ upW upW dateW dateW
      (listMsg (.num 1)) (listMsg (.num 2)) rfl rfl).1,
   (growpanel_C9 envW ⟨some "http://x", none⟩ upW upW dateW dateW
      (listMsg (.num 1)) (listMsg (.num 2)) rfl rfl).2.1⟩

/-- Claim C7: a non-2xx upstream response makes callApi throw an error whose
message contains the upstream status code, status text and body text, and
the request/response transport surfaces it as JSON-RPC error -32603 whose
data field carries that message (hence the body text). -/
theorem growpanel_C7 (env : Env) (ep : String) (ps : List (String × JSValue))
    (r : UpstreamResponse) (today : CivilDate) (mid : JSValue)
    (htok : jsFalsyStr env.token = false)
    (hbad : ¬(200 ≤ r.status ∧ r.status < 300)) :
    (callApi env (fun _ _ => r) ep ps).1 = .error (apiFailMsg r)
    ∧ containsSub (toString r.status) (apiFailMsg r)
    ∧ containsSub r.statusText (apiFailMsg r)
    ∧ containsSub r.bodyText (apiFailMsg r)
    ∧ ∃ reqs, handlePost env (fun _ _ => r) today
        (.ok (callMsg mid (.str "getMRR") (.obj [])))
      = (200, rpcErrorResp mid (-32603) "Internal error" (some (.str (apiFailMsg r))), reqs) := by
  refine ⟨callApi_fail env ep ps r htok hbad, ?_, ?_, ?_, ?_⟩
  · refine ⟨"API call failed: ", " " ++ r.statusText ++ " - " ++ r.bodyText, ?_⟩
    simp [apiFailMsg, String.append_assoc]
  · refine ⟨"API call failed: " ++ toString r.status ++ " ", " - " ++ r.bodyText, ?_⟩
    simp [apiFailMsg, String.append_assoc]
  · refine ⟨"API call failed: " ++ toString r.status ++ " " ++ r.statusText ++ " - ", "", ?_⟩
    simp [apiFailMsg, String.append_assoc]
  · have hp : getMRRInputParse (.obj [])
        = .ok ⟨none, "month", none, none, none, none, none⟩ := rfl
    have hc : (callApi env (fun _ _ => r) "mrr"
        (mrrFilters ⟨none, "month", none, none, none, none, none⟩ today)).1
        = .error (apiFailMsg r) :=
      callApi_fail env "mrr" _ r htok hbad
    have hrun : getMRRRun env (fun _ _ => r) today (.obj [])
        = (.error (apiFailMsg r),
           (callApi env (fun _ _ => r) "mrr"
             (mrrFilters ⟨none, "month", none, none, none, none, none⟩ today)).2) := by
      unfold getMRRRun
      rw [hp]
      dsimp only
      rw [hc]
    have hpost : handlePost env (fun _ _ => r) today
        (.ok (callMsg mid (.str "getMRR") (.obj [])))
        = handleToolCall env (fun _ _ => r) today mid (.str "getMRR") (.obj []) := rfl
    refine ⟨(callApi env (fun _ _ => r) "mrr"
      (mrrFilters ⟨none, "month", none, none, none, none, none⟩ today)).2, ?_⟩
    rw [hpost]
    unfold handleToolCall
    dsimp only
    rw [if_pos rfl, hrun]
    rfl

/-- Claim C7 witness: the spec's Scenario E — upstream HTTP 500 with body
"rate limited" yields the error message carrying all three pieces, and the
transport's -32603 response carries the body text in its data. -/
theorem growpanel_C7_witness :
    (callApi envW (fun _ _ => respW) "mrr" []).1
      = .error "API call failed: 500 Internal Server Error - rate limited"
    ∧ containsSub "rate limited" (apiFailMsg respW)
    ∧ containsSub "500" (apiFailMsg respW)
    ∧ ∃ reqs, handlePost envW (fun _ _ => respW) dateW
        (.ok (callMsg (.num 3) (.str "getMRR") (.obj [])))
      = (200, rpcErrorResp (.num 3) (-32603) "Internal error"
          (some (.str (apiFailMsg respW))), reqs) := by
  have h := growpanel_C7 envW "mrr" [] respW dateW (.num 3) rfl (by decide)
  exact ⟨h.1, h.2.2.2.1, h.2.1, h.2.2.2.2⟩

/-- Claim C4: every valid invocation of getMRR, getLeads or getCohorts that
omits `date` sends upstream a synthesized date filter start-end where end is
today and start is the date exactly 365 days before today (adding 365 days
to it gives today back), and the synthesized string matches \d{8}-\d{8}. -/
theorem growpanel_C4 (env : Env) (up : Upstream) (today : CivilDate)
    (htok : jsFalsyStr env.token = false) (hv : today.valid)
    (hy1 : 365 < today.year) (hy2 : today.year ≤ 9999) :
    (∀ args p, getMRRInputParse args = .ok p → p.date = none →
       (getMRRRun env up today args).2
         = [⟨envBaseUrl env ++ "/reports/" ++ "mrr",
             buildQuery (p.toParams ++ [("date", .str (defaultDateRange today))])⟩]
       ∧ ("date", defaultDateRange today)
           ∈ buildQuery (p.toParams ++ [("date", .str (defaultDateRange today))]))
    ∧ (∀ args p, getLeadsInputParse args = .ok p → p.date = none →
       (getLeadsRun env up today args).2
         = [⟨envBaseUrl env ++ "/reports/" ++ "leads",
             buildQuery (p.toParams ++ [("date", .str (defaultDateRange today))])⟩]
       ∧ ("date", defaultDateRange today)
           ∈ buildQuery (p.toParams ++ [("date", .str (defaultDateRange today))]))
    ∧ (∀ args p, getCohortsInputParse args = .ok p → p.date = none →
       (getCohortsRun env up today args).2
         = [⟨envBaseUrl env ++ "/reports/" ++ "cohort",
             buildQuery (p.toParams ++ [("date", .str (defaultDateRange today))])⟩]
       ∧ ("date", defaultDateRange today)
           ∈ buildQuery (p.toParams ++ [("date", .str (defaultDateRange today))]))
    ∧ matchesDateRange (defaultDateRange today) = true
    ∧ defaultDateRange today = fmt8 (subDays 365 today) ++ "-" ++ fmt8 today
    ∧ (subDays 365 today).valid
    ∧ addDays 365 (subDays 365 today) = today := by
  refine ⟨?_, ?_, ?_, matchesDateRange_fmt (subDays 365 today) today, rfl,
    subDays_valid 365 hv, addDays_subDays 365 today hv (by omega)⟩
  · intro args p hp hd
    have hfil : mrrFilters p today
        = p.toParams ++ [("date", .str (defaultDateRange today))] := by
      unfold mrrFilters
      rw [hd]
    constructor
    · unfold getMRRRun
      rw [hp]
      dsimp only
      rw [hfil]
      exact callApi_requests env up "mrr" _ htok
    · have hmem : ("date", JSValue.str (defaultDateRange today))
          ∈ p.toParams ++ [("date", JSValue.str (defaultDateRange today))] :=
        List.mem_append_right _ (List.Mem.head _)
      exact mem_buildQuery_of hmem
        (fun hh => JSValue.noConfusion hh) (fun hh => JSValue.noConfusion hh)
  · intro args p hp hd
    have hfil : leadsFilters p today
        = p.toParams ++ [("date", .str (defaultDateRange today))] := by
      unfold leadsFilters
      rw [hd]
    constructor
    · unfold getLeadsRun
      rw [hp]
      dsimp only
      rw [hfil]
      exact callApi_requests env up "leads" _ htok
    · have hmem : ("date", JSValue.str (defaultDateRange today))
          ∈ p.toParams ++ [("date", JSValue.str (defaultDateRange today))] :=
        List.mem_append_right _ (List.Mem.head _)
      exact mem_buildQuery_of hmem
        (fun hh => JSValue.noConfusion hh) (fun hh => JSValue.noConfusion hh)
  · intro args p hp hd
    have hfil : mrrFilters p today
        = p.toParams ++ [("date", .str (defaultDateRange today))] := by
      unfold mrrFilters
      rw [hd]
    constructor
    · unfold getCohortsRun
      rw [hp]
      dsimp only
      rw [hfil]
      exact callApi_requests env up "cohort" _ htok
    · have hmem : ("date", JSValue.str (defaultDateRange today))
          ∈ p.toParams ++ [("date", JSValue.str (defaultDateRange today))] :=
        List.mem_append_right _ (List.Mem.head _)
      exact mem_buildQuery_of hmem
        (fun hh => JSValue.noConfusion hh) (fun hh => JSValue.noConfusion hh)

set_option maxRecDepth 6000 in
/-- Claim C4 witness: getMRR invoked with empty arguments on 2026-10-11
issues one request whose query carries the synthesized date filter; the
synthesized range is 20251011-20261011, it matches the pattern, and adding
365 days to its start gives today back.  (The 365-step date computation is
evaluated in five 73-day chunks via subDays_add to stay within the
elaborator's recursion budget.) -/
theorem growpanel_C4_witness :
    ((getMRRRun envW upW dateW (.obj [])).2
        = [⟨envBaseUrl envW ++ "/reports/" ++ "mrr",
            buildQuery ((⟨none, "month", none, none, none, none, none⟩ : MRRParsed).toParams
              ++ [("date", .str (defaultDateRange dateW))])⟩]
      ∧ ("date", defaultDateRange dateW)
          ∈ buildQuery ((⟨none, "month", none, none, none, none, none⟩ : MRRParsed).toParams
              ++ [("date", .str (defaultDateRange dateW))]))
    ∧ matchesDateRange (defaultDateRange dateW) = true
    ∧ addDays 365 (subDays 365 dateW) = dateW
    ∧ defaultDateRange dateW = "20251011-20261011" := by
  have s1 : subDays 73 dateW = ⟨2026, 7, 30⟩ := by decide
  have s2 : subDays 73 (⟨2026, 7, 30⟩ : CivilDate) = ⟨2026, 5, 18⟩ := by decide
  have s3 : subDays 73 (⟨2026, 5, 18⟩ : CivilDate) = ⟨2026, 3, 6⟩ := by decide
  have s4 : subDays 73 (⟨2026, 3, 6⟩ : CivilDate) = ⟨2025, 12, 23⟩ := by decide
  have s5 : subDays 73 (⟨2025, 12, 23⟩ : CivilDate) = ⟨2025, 10, 11⟩ := by decide
  have c365 : subDays 365 dateW = ⟨2025, 10, 11⟩ := by
    have e1 : subDays 365 dateW = subDays 292 (subDays 73 dateW) :=
      subDays_add 292 73 dateW
    have e2 : subDays 292 (⟨2026, 7, 30⟩ : CivilDate)
        = subDays 219 (subDays 73 ⟨2026, 7, 30⟩) := subDays_add 219 73 _
    have e3 : subDays 219 (⟨2026, 5, 18⟩ : CivilDate)
        = subDays 146 (subDays 73 ⟨2026, 5, 18⟩) := subDays_add 146 73 _
    have e4 : subDays 146 (⟨2026, 3, 6⟩ : CivilDate)
        = subDays 73 (subDays 73 ⟨2026, 3, 6⟩) := subDays_add 73 73 _
    rw [e1, s1, e2, s2, e3, s3, e4, s4, s5]
  have h := growpanel_C4 envW upW dateW rfl (by decide) (by decide) (by decide)
  refine ⟨h.1 (.obj []) ⟨none, "month", none, none, none, none, none⟩ rfl rfl,
    h.2.2.2.1, h.2.2.2.2.2.2, ?_⟩
  show fmt8 (subDays 365 dateW) ++ "-" ++ fmt8 dateW = "20251011-20261011"
  rw [c365]
  decide
